import Mathlib

/-!
Verification of the EuroBot mass-mailing / delivery pipeline.

Shallow embedding of the campaign-dispatch core of the repository:
`src/backend/app/routers/email.py` (campaign CRUD, recipient resolution,
background dispatch), `src/backend/app/utils/email.py` (`send_email`), and
the data model of `src/backend/app/models/email_log.py`.  Timestamps are
abstract ticks (`Nat`); the SMTP transport is an external capability and is
modelled by an outcome oracle (`Nat → TransportResult`) indexed by the
position of the recipient in the dispatch loop.  Python truthiness tests on
`Optional` columns (`if campaign.recipients_limit:` etc.) are modelled by
the explicit `pyTruthy*` functions.
-/

namespace EuroBot

/-- EmailStatus enum (models/email_log.py lines 8-11). -/
inductive EmailStatus where
  | pending
  | sent
  | failed
deriving DecidableEq, Repr

/-- EmailType enum (models/email_log.py lines 14-19). -/
inductive EmailType where
  | registration_confirmation
  | contact_notification
  | mass_mailing
  | team_status_update
  | custom
deriving DecidableEq, Repr

/-- Python `EmailType(email_type) if email_type in [e.value for e in EmailType]
else EmailType.custom` (utils/email.py line 98). -/
def emailTypeOfString (s : String) : EmailType :=
  if s = "registration_confirmation" then .registration_confirmation
  else if s = "contact_notification" then .contact_notification
  else if s = "mass_mailing" then .mass_mailing
  else if s = "team_status_update" then .team_status_update
  else .custom

/-- EmailLog row (models/email_log.py lines 22-56): the fields written by
`send_email`.  `created_at` is a server default and never read by the code
under study, so it is omitted.  The foreign keys on `team_id`, `contact_id`
and `sent_by` are declared `ondelete="SET NULL"`; there is no foreign key to
a campaign at all. -/
structure EmailLog where
  to_email : String
  subject : String
  body_preview : Option String
  email_type : EmailType
  status : EmailStatus
  error_message : Option String
  retry_count : Nat
  team_id : Option Nat
  contact_id : Option Nat
  sent_by : Option Nat
  sent_at : Option Nat
deriving DecidableEq, Repr

/-- Modelled from the spec: team status values of the team registry
(`app/models/team.py` is not under src/; spec section 6 lists status in
approved, pending, any; routers use approved/pending/rejected/withdrawn). -/
inductive TeamStatus where
  | pending
  | approved
  | rejected
  | withdrawn
deriving DecidableEq, Repr

/-- Modelled from the spec: the team-registry row as consumed by the mailing
code (`app/models/team.py` is not under src/): spec section 6 gives the
query interface (status, season-id, registration date ordering, address,
correlation-id); `created_at` is the registration instant as an abstract
tick. -/
structure Team where
  id : Nat
  email : String
  status : TeamStatus
  season_id : Option Nat
  created_at : Nat
deriving DecidableEq, Repr

/-- MassMailingCampaign row (models/email_log.py lines 59-96).
`custom_emails` is stored as a JSON text column; JSON round-trips a list of
strings faithfully, so it is modelled as `Option (List String)` (`none` is
SQL NULL).  `created_at` is a server default, never read by this code. -/
structure Campaign where
  id : Nat
  name : String
  subject : String
  body : String
  target_type : String
  target_season_id : Option Nat
  custom_emails : Option (List String)
  recipients_limit : Option Nat
  scheduled_at : Option Nat
  is_scheduled : Bool
  total_recipients : Nat
  sent_count : Nat
  failed_count : Nat
  is_sent : Bool
  created_by : Option Nat
  sent_at : Option Nat
deriving DecidableEq, Repr

/-- MassMailingCreate request schema (schemas/email.py lines 51-60). -/
structure MassMailingCreate where
  name : String
  subject : String
  body : String
  target_type : String
  target_season_id : Option Nat
  custom_emails : Option (List String)
  recipients_limit : Option Nat
  scheduled_at : Option Nat
deriving DecidableEq, Repr

/-- SMTP configuration (config.py lines 24-28): `SMTP_USER` and
`SMTP_PASSWORD` are `Optional[str] = None`. -/
structure Settings where
  SMTP_USER : Option String
  SMTP_PASSWORD : Option String
deriving DecidableEq, Repr

/-- Python truthiness of an `Optional[str]`: `None` and `""` are falsy. -/
def pyTruthyStr : Option String → Bool
  | none => false
  | some s => !(s == "")

/-- Python truthiness of an `Optional[int]` (non-negative here): `None` and
`0` are falsy. -/
def pyTruthyNat : Option Nat → Bool
  | none => false
  | some n => !(n == 0)

/-- Python truthiness of an `Optional[List[str]]`: `None` and `[]` are
falsy. -/
def pyTruthyList : Option (List String) → Bool
  | none => false
  | some l => !l.isEmpty

/-- Outcome of one invocation of the SMTP transport
(`aiosmtplib.send`, utils/email.py lines 136-143): success, or an exception
whose text becomes the error message. -/
inductive TransportResult where
  | ok
  | fail (msg : String)
deriving DecidableEq, Repr

/-- One iteration of the recipient loop of `send_email`
(utils/email.py lines 89-156), for a single recipient with a db session:
create the log row with `status=pending`, then either mark it failed with
"SMTP not configured" (lines 109-115), mark it sent with a completion
timestamp (lines 147-149), or mark it failed with the transport's error
text (lines 151-156).  Returns the final log row and the success flag that
the caller tallies. -/
def sendEmailOne (cfg : Settings) (to_addr subject body email_type : String)
    (team_id contact_id sent_by : Option Nat) (tr : TransportResult)
    (now : Nat) : EmailLog × Bool :=
  let log : EmailLog :=
    { to_email := to_addr
      subject := subject
      body_preview := if body = "" then none else some (body.take 500)
      email_type := emailTypeOfString email_type
      status := .pending
      error_message := none
      retry_count := 0
      team_id := team_id
      contact_id := contact_id
      sent_by := sent_by
      sent_at := none }
  if !pyTruthyStr cfg.SMTP_USER || !pyTruthyStr cfg.SMTP_PASSWORD then
    ({ log with status := .failed, error_message := some "SMTP not configured" }, false)
  else
    match tr with
    | .ok => ({ log with status := .sent, sent_at := some now }, true)
    | .fail e => ({ log with status := .failed, error_message := some e }, false)

/-- The recipient loop of `send_campaign_emails`
(routers/email.py lines 250-267): one `send_email` call (hence one log row)
per resolved recipient, accumulating the (sent, failed) tally.  `i` is the
position of the recipient, used to index the transport oracle. -/
def dispatchLoop (cfg : Settings) (subject body : String) (sent_by : Option Nat)
    (outcomes : Nat → TransportResult) (now : Nat) :
    List (String × Option Nat) → Nat → List EmailLog × Nat × Nat
  | [], _ => ([], 0, 0)
  | (email, team_id) :: rest, i =>
    let r1 := sendEmailOne cfg email subject body "mass_mailing" team_id none
      sent_by (outcomes i) now
    let r2 := dispatchLoop cfg subject body sent_by outcomes now rest (i + 1)
    (r1.1 :: r2.1,
     (if r1.2 then r2.2.1 + 1 else r2.2.1),
     (if r1.2 then r2.2.2 else r2.2.2 + 1))

/-- The background unit of work `send_campaign_emails`
(routers/email.py lines 249-274), run to completion: loop over the resolved
recipients, then write the aggregate counters, `is_sent=True` and the
completion timestamp back to the campaign row (lines 269-274). -/
def sendCampaignEmails (cfg : Settings) (c : Campaign)
    (recipients : List (String × Option Nat)) (admin_id : Option Nat)
    (outcomes : Nat → TransportResult) (now : Nat) : List EmailLog × Campaign :=
  let r := dispatchLoop cfg c.subject c.body admin_id outcomes now recipients 0
  (r.1,
   { c with sent_count := r.2.1, failed_count := r.2.2,
            is_sent := true, sent_at := some now })

/-- Status filter of the team query (routers/email.py lines 227-230): only
the two literal kinds add a WHERE clause; every other kind (including
`all_teams` and any unknown string) selects all teams. -/
def statusFiltered (teams : List Team) (c : Campaign) : List Team :=
  if c.target_type = "approved_teams" then
    teams.filter (fun t => t.status == TeamStatus.approved)
  else if c.target_type = "pending_teams" then
    teams.filter (fun t => t.status == TeamStatus.pending)
  else teams

/-- Season filter (routers/email.py lines 232-233): applied only when
`target_season_id` is truthy. -/
def seasonFiltered (teams : List Team) (c : Campaign) : List Team :=
  if pyTruthyNat c.target_season_id then
    teams.filter (fun t => t.season_id == c.target_season_id)
  else teams

/-- Stable insertion keeping the list ordered by `created_at` descending. -/
def insertByRecency (t : Team) : List Team → List Team
  | [] => [t]
  | u :: us =>
    if t.created_at > u.created_at then t :: u :: us
    else u :: insertByRecency t us

/-- `ORDER BY Team.created_at DESC` (routers/email.py line 236). -/
def sortByRecency : List Team → List Team
  | [] => []
  | t :: ts => insertByRecency t (sortByRecency ts)

/-- `if campaign.recipients_limit: teams_query = teams_query.limit(...)`
(routers/email.py lines 239-240): the LIMIT is applied only when the stored
cap is truthy (present and non-zero). -/
def capApplied (l : List Team) (c : Campaign) : List Team :=
  if pyTruthyNat c.recipients_limit then l.take (c.recipients_limit.getD 0)
  else l

/-- The full team query of `send_campaign`
(routers/email.py lines 225-243): status filter, season filter, order by
registration recency (newest first), then the cap. -/
def teamQueryResult (teams : List Team) (c : Campaign) : List Team :=
  capApplied (sortByRecency (seasonFiltered (statusFiltered teams c) c)) c

/-- Recipient resolution of `send_campaign` (routers/email.py lines
217-244): the explicit-list branch fires when `target_type ==
"custom_emails"` and the stored JSON column is truthy (any non-NULL stored
value: the stored text of a list is a non-empty string), yielding the
literal addresses with no correlation-id; otherwise the team query runs and
each team yields (email, team id). -/
def resolveRecipients (teams : List Team) (c : Campaign) :
    List (String × Option Nat) :=
  if c.target_type = "custom_emails" ∧ c.custom_emails.isSome = true then
    (c.custom_emails.getD []).map (fun e => (e, none))
  else
    (teamQueryResult teams c).map (fun t => (t.email, some t.id))

/-- Preview recipient count of `create_campaign` for the team-based branch
(routers/email.py lines 157-173): a COUNT with the same status and season
filters (no ordering), then clamped by the limit when the limit is truthy
and strictly below the count. -/
def countRecipientsPreview (teams : List Team) (d : MassMailingCreate) : Nat :=
  let q1 :=
    if d.target_type = "approved_teams" then
      teams.filter (fun t => t.status == TeamStatus.approved)
    else if d.target_type = "pending_teams" then
      teams.filter (fun t => t.status == TeamStatus.pending)
    else teams
  let q2 :=
    if pyTruthyNat d.target_season_id then
      q1.filter (fun t => t.season_id == d.target_season_id)
    else q1
  let n := q2.length
  if pyTruthyNat d.recipients_limit ∧ d.recipients_limit.getD 0 < n then
    d.recipients_limit.getD 0
  else n

/-- `create_campaign` (routers/email.py lines 141-193): the explicit-list
branch fires only when the submitted list is truthy (non-empty); otherwise
`custom_emails` is stored as NULL and the preview count comes from the team
query. -/
def createCampaign (teams : List Team) (d : MassMailingCreate)
    (admin_id : Nat) (new_id : Nat) : Campaign :=
  let r :=
    if d.target_type = "custom_emails" ∧ pyTruthyList d.custom_emails = true then
      ((d.custom_emails.getD []).length, d.custom_emails)
    else (countRecipientsPreview teams d, none)
  { id := new_id
    name := d.name
    subject := d.subject
    body := d.body
    target_type := d.target_type
    target_season_id := d.target_season_id
    custom_emails := r.2
    recipients_limit := d.recipients_limit
    scheduled_at := d.scheduled_at
    is_scheduled := d.scheduled_at.isSome
    total_recipients := r.1
    sent_count := 0
    failed_count := 0
    is_sent := false
    created_by := some admin_id
    sent_at := none }

/-- The HTTP error outcomes of the campaign endpoints
(routers/email.py lines 212, 215, 294, 297). -/
inductive ApiError where
  | notFound
  | alreadySent
  | cannotDeleteSent
deriving DecidableEq, Repr

/-- The persistent state touched by the campaign endpoints: the campaign
table, the team registry and the email-log table. -/
structure Db where
  campaigns : List Campaign
  teams : List Team
  logs : List EmailLog
deriving DecidableEq, Repr

/-- `send_campaign` (routers/email.py lines 196-278) with its background
task run to completion: look the campaign up (404 if absent), reject an
already-sent campaign (400, raised before any recipient resolution and
before the background task is registered, so an error leaves the store
untouched), otherwise resolve the recipients, dispatch, and persist the
finalised campaign row and the new log rows.  The returned `Nat` is the
resolved recipient count reported in the response message. -/
def sendCampaign (cfg : Settings) (db : Db) (campaign_id : Nat)
    (admin_id : Nat) (outcomes : Nat → TransportResult) (now : Nat) :
    Except ApiError (Db × Nat) :=
  match db.campaigns.find? (fun c => c.id == campaign_id) with
  | none => .error .notFound
  | some c =>
    if c.is_sent then .error .alreadySent
    else
      let recipients := resolveRecipients db.teams c
      let r := sendCampaignEmails cfg c recipients (some admin_id) outcomes now
      .ok ({ db with
              campaigns := db.campaigns.map
                (fun x => if x.id == campaign_id then r.2 else x),
              logs := db.logs ++ r.1 },
           recipients.length)

/-- `delete_campaign` (routers/email.py lines 281-302): look the campaign up
(404 if absent), reject a sent campaign (400), otherwise delete the
campaign row.  Only the campaign row is deleted: `email_logs` has no
foreign key to campaigns at all (models/email_log.py lines 47-49), so the
delivery history is untouched. -/
def deleteCampaign (db : Db) (campaign_id : Nat) : Except ApiError Db :=
  match db.campaigns.find? (fun c => c.id == campaign_id) with
  | none => .error .notFound
  | some c =>
    if c.is_sent then .error .cannotDeleteSent
    else .ok { db with
                campaigns := db.campaigns.filter (fun x => !(x.id == campaign_id)) }

/-- Whether a `send_campaign` call succeeded. -/
def sendIsOk (r : Except ApiError (Db × Nat)) : Bool :=
  match r with
  | .ok _ => true
  | .error _ => false

/-- Number of email-log rows in the store after a successful
`send_campaign` call (0 on error). -/
def sendLogsCount (r : Except ApiError (Db × Nat)) : Nat :=
  match r with
  | .ok (db2, _) => db2.logs.length
  | .error _ => 0

/-- Resolved recipient count reported by a successful `send_campaign` call
(0 on error). -/
def sendResolvedCount (r : Except ApiError (Db × Nat)) : Nat :=
  match r with
  | .ok (_, n) => n
  | .error _ => 0

/-! ### Concrete sample values used by counterexamples and witnesses -/

/-- A configured SMTP transport (both credentials truthy). -/
def cfgSample : Settings := { SMTP_USER := some "mailer", SMTP_PASSWORD := some "pw" }

/-- An approved team of season 2025 registered at tick `ca`. -/
def teamOf (i : Nat) (e : String) (ca : Nat) : Team :=
  { id := i
    email := e
    status := .approved
    season_id := some 2025
    created_at := ca }

/-- Five approved teams of season 2025, registered at ticks 1 < ... < 5. -/
def fiveTeams : List Team :=
  [teamOf 1 "t1@x.com" 1, teamOf 2 "t2@x.com" 2, teamOf 3 "t3@x.com" 3,
   teamOf 4 "t4@x.com" 4, teamOf 5 "t5@x.com" 5]

/-- A draft explicit-list campaign. -/
def campBase : Campaign :=
  { id := 1
    name := "n"
    subject := "s"
    body := "b"
    target_type := "custom_emails"
    target_season_id := none
    custom_emails := some ["a@x.com"]
    recipients_limit := none
    scheduled_at := none
    is_scheduled := false
    total_recipients := 1
    sent_count := 0
    failed_count := 0
    is_sent := false
    created_by := some 7
    sent_at := none }

/-- A draft campaign whose explicit list repeats its first address. -/
def custom3Camp : Campaign :=
  { campBase with
    custom_emails := some ["a@x.com", "b@x.com", "a@x.com"]
    total_recipients := 3 }

/-- A draft campaign with an unknown targeting kind. -/
def bogusCamp : Campaign :=
  { campBase with target_type := "bogus", custom_emails := none }

/-- A draft approved-teams campaign carrying an explicit cap of 0. -/
def capZeroCamp : Campaign :=
  { campBase with
    target_type := "approved_teams"
    custom_emails := none
    recipients_limit := some 0 }

/-- A draft approved-teams campaign of season 2025 with cap 2. -/
def cap2Camp : Campaign :=
  { campBase with
    target_type := "approved_teams"
    custom_emails := none
    target_season_id := some 2025
    recipients_limit := some 2
    total_recipients := 2 }

/-- An already-sent campaign. -/
def sentCamp : Campaign :=
  { campBase with is_sent := true, sent_count := 1, sent_at := some 3 }

/-- A create request with kind custom_emails and an empty address list. -/
def emptyCustomCreate : MassMailingCreate :=
  { name := "n"
    subject := "s"
    body := "b"
    target_type := "custom_emails"
    target_season_id := none
    custom_emails := some []
    recipients_limit := none
    scheduled_at := none }

/-! ### Helper lemmas about the dispatch loop and the team query -/

theorem dispatchLoop_length (cfg : Settings) (s b : String) (sb : Option Nat)
    (oc : Nat → TransportResult) (now : Nat) :
    ∀ (rs : List (String × Option Nat)) (i : Nat),
      (dispatchLoop cfg s b sb oc now rs i).1.length = rs.length := by
  intro rs
  induction rs with
  | nil => intro i; rfl
  | cons r rest ih =>
    intro i
    obtain ⟨e, t⟩ := r
    simp [dispatchLoop, ih]

theorem dispatchLoop_tally (cfg : Settings) (s b : String) (sb : Option Nat)
    (oc : Nat → TransportResult) (now : Nat) :
    ∀ (rs : List (String × Option Nat)) (i : Nat),
      (dispatchLoop cfg s b sb oc now rs i).2.1
        + (dispatchLoop cfg s b sb oc now rs i).2.2 = rs.length := by
  intro rs
  induction rs with
  | nil => intro i; rfl
  | cons r rest ih =>
    intro i
    obtain ⟨e, t⟩ := r
    have h2 := ih (i + 1)
    simp only [dispatchLoop, List.length_cons]
    cases (sendEmailOne cfg e s b "mass_mailing" t none sb (oc i) now).2 with
    | true => simp; omega
    | false => simp; omega

theorem sendEmailOne_invariants (cfg : Settings) (a s b et : String)
    (tid cid sb : Option Nat) (tr : TransportResult) (now : Nat) :
    ((sendEmailOne cfg a s b et tid cid sb tr now).1.status = .sent
        ∨ (sendEmailOne cfg a s b et tid cid sb tr now).1.status = .failed)
    ∧ ((sendEmailOne cfg a s b et tid cid sb tr now).1.status = .sent →
        (sendEmailOne cfg a s b et tid cid sb tr now).1.sent_at = some now)
    ∧ ((sendEmailOne cfg a s b et tid cid sb tr now).1.status = .failed →
        (sendEmailOne cfg a s b et tid cid sb tr now).1.error_message.isSome = true) := by
  by_cases h : (!pyTruthyStr cfg.SMTP_USER || !pyTruthyStr cfg.SMTP_PASSWORD) = true
  · simp [sendEmailOne, h]
  · cases tr with
    | ok => simp [sendEmailOne, h]
    | fail e => simp [sendEmailOne, h]

theorem dispatchLoop_log_invariants (cfg : Settings) (s b : String)
    (sb : Option Nat) (oc : Nat → TransportResult) (now : Nat) :
    ∀ (rs : List (String × Option Nat)) (i : Nat) (log : EmailLog),
      log ∈ (dispatchLoop cfg s b sb oc now rs i).1 →
      (log.status = .sent ∨ log.status = .failed)
      ∧ (log.status = .sent → log.sent_at = some now)
      ∧ (log.status = .failed → log.error_message.isSome = true) := by
  intro rs
  induction rs with
  | nil => intro i log h; simp [dispatchLoop] at h
  | cons r rest ih =>
    intro i log h
    obtain ⟨e, t⟩ := r
    simp only [dispatchLoop, List.mem_cons] at h
    rcases h with h | h
    · subst h
      exact sendEmailOne_invariants cfg e s b "mass_mailing" t none sb (oc i) now
    · exact ih (i + 1) log h

theorem insertByRecency_length (t : Team) :
    ∀ (l : List Team), (insertByRecency t l).length = l.length + 1 := by
  intro l
  induction l with
  | nil => rfl
  | cons u us ih =>
    by_cases h : t.created_at > u.created_at
    · simp [insertByRecency, h]
    · simp [insertByRecency, h, ih]

theorem sortByRecency_length :
    ∀ (l : List Team), (sortByRecency l).length = l.length := by
  intro l
  induction l with
  | nil => rfl
  | cons u us ih => simp [sortByRecency, insertByRecency_length, ih]

theorem insertByRecency_mem (t : Team) :
    ∀ (l : List Team) (x : Team), x ∈ insertByRecency t l → x = t ∨ x ∈ l := by
  intro l
  induction l with
  | nil =>
    intro x h
    simp [insertByRecency] at h
    exact Or.inl h
  | cons u us ih =>
    intro x h
    by_cases hc : t.created_at > u.created_at
    · simp only [insertByRecency, if_pos hc, List.mem_cons] at h
      rcases h with h | h | h
      · exact Or.inl h
      · exact Or.inr (by simp [h])
      · exact Or.inr (List.mem_cons_of_mem u h)
    · simp only [insertByRecency, if_neg hc, List.mem_cons] at h
      rcases h with h | h
      · exact Or.inr (by simp [h])
      · rcases ih x h with h1 | h1
        · exact Or.inl h1
        · exact Or.inr (List.mem_cons_of_mem u h1)

theorem insertByRecency_pairwise (t : Team) :
    ∀ (l : List Team),
      l.Pairwise (fun a b => b.created_at ≤ a.created_at) →
      (insertByRecency t l).Pairwise (fun a b => b.created_at ≤ a.created_at) := by
  intro l
  induction l with
  | nil => intro _; simp [insertByRecency]
  | cons u us ih =>
    intro hp
    rw [List.pairwise_cons] at hp
    obtain ⟨hu, hus⟩ := hp
    by_cases hc : t.created_at > u.created_at
    · simp only [insertByRecency, if_pos hc]
      rw [List.pairwise_cons]
      refine ⟨?_, ?_⟩
      · intro x hx
        rcases List.mem_cons.mp hx with rfl | hx
        · exact Nat.le_of_lt hc
        · exact Nat.le_trans (hu x hx) (Nat.le_of_lt hc)
      · rw [List.pairwise_cons]
        exact ⟨hu, hus⟩
    · simp only [insertByRecency, if_neg hc]
      rw [List.pairwise_cons]
      refine ⟨?_, ih hus⟩
      intro x hx
      rcases insertByRecency_mem t us x hx with rfl | hx
      · exact Nat.le_of_not_lt hc
      · exact hu x hx

theorem sortByRecency_pairwise :
    ∀ (l : List Team),
      (sortByRecency l).Pairwise (fun a b => b.created_at ≤ a.created_at) := by
  intro l
  induction l with
  | nil => simp [sortByRecency]
  | cons u us ih => exact insertByRecency_pairwise u (sortByRecency us) ih

/-! ### Claim theorems -/

/-- C1: a campaign dispatch that runs to completion ends with
`is_sent = true`; `sent_count + failed_count` equals the number of delivery
records created by that dispatch, each resolved recipient producing exactly
one record and exactly one increment of the matching tally; the counters
are written once, by the finalising update; and afterwards any state whose
campaign table resolves the campaign id to the finalised row rejects both a
re-trigger and a delete, so neither the counters nor the flag change
again. -/
theorem campaign_completion_counts (cfg : Settings) (c : Campaign)
    (recipients : List (String × Option Nat)) (admin_id : Option Nat)
    (outcomes : Nat → TransportResult) (now : Nat) :
    (sendCampaignEmails cfg c recipients admin_id outcomes now).2.is_sent = true
    ∧ (sendCampaignEmails cfg c recipients admin_id outcomes now).2.sent_count
        + (sendCampaignEmails cfg c recipients admin_id outcomes now).2.failed_count
        = (sendCampaignEmails cfg c recipients admin_id outcomes now).1.length
    ∧ (sendCampaignEmails cfg c recipients admin_id outcomes now).1.length
        = recipients.length
    ∧ (∀ (db : Db) (adm now2 : Nat) (oc2 : Nat → TransportResult),
        db.campaigns.find? (fun x => x.id == c.id)
            = some (sendCampaignEmails cfg c recipients admin_id outcomes now).2 →
        sendCampaign cfg db c.id adm oc2 now2 = .error .alreadySent
        ∧ deleteCampaign db c.id = .error .cannotDeleteSent) := by
  refine ⟨rfl, ?_, ?_, ?_⟩
  · show (dispatchLoop cfg c.subject c.body admin_id outcomes now recipients 0).2.1
        + (dispatchLoop cfg c.subject c.body admin_id outcomes now recipients 0).2.2
        = (dispatchLoop cfg c.subject c.body admin_id outcomes now recipients 0).1.length
    rw [dispatchLoop_length]
    exact dispatchLoop_tally cfg c.subject c.body admin_id outcomes now recipients 0
  · exact dispatchLoop_length cfg c.subject c.body admin_id outcomes now recipients 0
  · intro db adm now2 oc2 hfind
    constructor
    · unfold sendCampaign
      rw [hfind]
      rfl
    · unfold deleteCampaign
      rw [hfind]
      rfl

/-- Witness for C1: after a concrete completed dispatch, both a re-trigger
and a delete of the finalised campaign are rejected. -/
theorem campaign_completion_counts_witness :
    sendCampaign cfgSample
        { campaigns := [(sendCampaignEmails cfgSample campBase [("a@x.com", none)]
            (some 7) (fun _ => .ok) 5).2]
          teams := []
          logs := [] } campBase.id 7 (fun _ => .ok) 9 = .error .alreadySent
    ∧ deleteCampaign
        { campaigns := [(sendCampaignEmails cfgSample campBase [("a@x.com", none)]
            (some 7) (fun _ => .ok) 5).2]
          teams := []
          logs := [] } campBase.id = .error .cannotDeleteSent :=
  (campaign_completion_counts cfgSample campBase [("a@x.com", none)] (some 7)
      (fun _ => .ok) 5).2.2.2
    { campaigns := [(sendCampaignEmails cfgSample campBase [("a@x.com", none)]
        (some 7) (fun _ => .ok) 5).2]
      teams := []
      logs := [] } 7 9 (fun _ => .ok) rfl

/-- C2: triggering a campaign whose `is_sent` flag is already true fails
with the "already sent" error; the guard is checked before recipient
resolution and before the background task is registered, so the call is a
no-op: no delivery records are created, no sending starts and the store is
left untouched (an error result carries no state change). -/
theorem trigger_already_sent_rejected (cfg : Settings) (db : Db)
    (campaign_id admin_id now : Nat) (outcomes : Nat → TransportResult)
    (c : Campaign)
    (hfind : db.campaigns.find? (fun x => x.id == campaign_id) = some c)
    (hsent : c.is_sent = true) :
    sendCampaign cfg db campaign_id admin_id outcomes now
      = .error .alreadySent := by
  unfold sendCampaign
  rw [hfind]
  simp [hsent]

/-- Witness for C2: the already-sent sample campaign is rejected. -/
theorem trigger_already_sent_rejected_witness :
    ((Db.mk [sentCamp] [] []).campaigns.find? (fun x => x.id == 1) = some sentCamp
      ∧ sentCamp.is_sent = true)
    ∧ sendCampaign cfgSample (Db.mk [sentCamp] [] []) 1 7 (fun _ => .ok) 9
        = .error .alreadySent :=
  ⟨⟨rfl, rfl⟩,
   trigger_already_sent_rejected cfgSample (Db.mk [sentCamp] [] []) 1 7 9
     (fun _ => .ok) sentCamp rfl rfl⟩

/-- C3: a transport failure for one recipient is recorded as a failed
delivery record carrying the transport's error text, subsequent recipients
in the same dispatch are still attempted (the dispatch always writes one
record per resolved recipient), and the campaign still completes with
`is_sent = true`; with 3 recipients where only the 2nd fails, the record
statuses are [sent, failed, sent], only the failed record carries the error
text, and the final counters are `sent_count = 2`, `failed_count = 1`. -/
theorem transport_failure_does_not_abort (cfg : Settings) (c : Campaign)
    (recipients : List (String × Option Nat)) (outcomes : Nat → TransportResult)
    (r1 r2 r3 : String) (t1 t2 t3 : Option Nat) (e : String)
    (admin_id : Option Nat) (now : Nat)
    (hcfg : pyTruthyStr cfg.SMTP_USER = true ∧ pyTruthyStr cfg.SMTP_PASSWORD = true) :
    (sendCampaignEmails cfg c recipients admin_id outcomes now).1.length
        = recipients.length
    ∧ ((sendCampaignEmails cfg c [(r1, t1), (r2, t2), (r3, t3)] admin_id
          (fun i => if i == 1 then .fail e else .ok) now).1.map (fun l => l.status)
        = [.sent, .failed, .sent])
    ∧ ((sendCampaignEmails cfg c [(r1, t1), (r2, t2), (r3, t3)] admin_id
          (fun i => if i == 1 then .fail e else .ok) now).1.map
            (fun l => l.error_message)
        = [none, some e, none])
    ∧ (sendCampaignEmails cfg c [(r1, t1), (r2, t2), (r3, t3)] admin_id
          (fun i => if i == 1 then .fail e else .ok) now).2.sent_count = 2
    ∧ (sendCampaignEmails cfg c [(r1, t1), (r2, t2), (r3, t3)] admin_id
          (fun i => if i == 1 then .fail e else .ok) now).2.failed_count = 1
    ∧ (sendCampaignEmails cfg c [(r1, t1), (r2, t2), (r3, t3)] admin_id
          (fun i => if i == 1 then .fail e else .ok) now).2.is_sent = true := by
  obtain ⟨h1, h2⟩ := hcfg
  refine ⟨dispatchLoop_length cfg c.subject c.body admin_id outcomes now recipients 0,
    ?_, ?_, ?_, ?_, rfl⟩
  all_goals simp [sendCampaignEmails, dispatchLoop, sendEmailOne, h1, h2]

/-- Witness for C3 at a concrete configured transport and 3 recipients. -/
theorem transport_failure_does_not_abort_witness :
    (pyTruthyStr cfgSample.SMTP_USER = true
      ∧ pyTruthyStr cfgSample.SMTP_PASSWORD = true)
    ∧ ((sendCampaignEmails cfgSample campBase
          [("a@x.com", none), ("b@x.com", none), ("c@x.com", none)] (some 7)
          (fun i => if i == 1 then .fail "boom" else .ok) 9).1.map (fun l => l.status)
        = [.sent, .failed, .sent]) :=
  ⟨⟨rfl, rfl⟩,
   (transport_failure_does_not_abort cfgSample campBase [] (fun _ => .ok)
      "a@x.com" "b@x.com" "c@x.com" none none none "boom" (some 7) 9
      ⟨rfl, rfl⟩).2.1⟩

/-- C4 counterexample: resolving the explicit list
["a@x.com","b@x.com","a@x.com"] returns all three entries in order — the
repeat is kept, not deduplicated to ["a@x.com","b@x.com"] as the claim
states. -/
theorem custom_list_resolution_keeps_repeats :
    resolveRecipients [] custom3Camp
      = [("a@x.com", none), ("b@x.com", none), ("a@x.com", none)]
    ∧ resolveRecipients [] custom3Camp ≠ [("a@x.com", none), ("b@x.com", none)] := by
  decide

/-- C4 (amended): resolving an explicit-list campaign returns the supplied
addresses in their original order, each paired with no correlation-id, with
no deduplication: repeats are kept exactly as supplied. -/
theorem custom_list_resolution_order (teams : List Team) (c : Campaign)
    (l : List String) (ht : c.target_type = "custom_emails")
    (hl : c.custom_emails = some l) :
    resolveRecipients teams c = l.map (fun e => (e, none)) := by
  simp [resolveRecipients, ht, hl]

/-- Witness for the amended C4 at the concrete repeated list. -/
theorem custom_list_resolution_order_witness :
    (custom3Camp.target_type = "custom_emails"
      ∧ custom3Camp.custom_emails = some ["a@x.com", "b@x.com", "a@x.com"])
    ∧ resolveRecipients [] custom3Camp
        = (["a@x.com", "b@x.com", "a@x.com"]).map (fun e => (e, none)) :=
  ⟨⟨rfl, rfl⟩,
   custom_list_resolution_order [] custom3Camp
     ["a@x.com", "b@x.com", "a@x.com"] rfl rfl⟩

/-- C5 counterexample: a campaign whose targeting kind is the unknown
string "bogus" is not rejected as a configuration error: over a registry of
one team the trigger succeeds, resolves that team and creates one delivery
record. -/
theorem unknown_kind_counterexample :
    sendIsOk (sendCampaign cfgSample
        { campaigns := [bogusCamp], teams := [teamOf 1 "t1@x.com" 1], logs := [] }
        1 7 (fun _ => .ok) 5) = true
    ∧ sendResolvedCount (sendCampaign cfgSample
        { campaigns := [bogusCamp], teams := [teamOf 1 "t1@x.com" 1], logs := [] }
        1 7 (fun _ => .ok) 5) = 1
    ∧ sendLogsCount (sendCampaign cfgSample
        { campaigns := [bogusCamp], teams := [teamOf 1 "t1@x.com" 1], logs := [] }
        1 7 (fun _ => .ok) 5) = 1 := by
  decide

/-- C5 (amended): an unknown targeting kind is not a fatal configuration
error: the status filter matches neither known team kind, so the campaign
is dispatched as if it targeted all team registrants (season scope and cap
still applied), creating delivery records for the resolved teams. -/
theorem unknown_kind_treated_as_all_teams (teams : List Team) (c : Campaign)
    (h1 : c.target_type ≠ "custom_emails")
    (h2 : c.target_type ≠ "approved_teams")
    (h3 : c.target_type ≠ "pending_teams") :
    statusFiltered teams c = teams
    ∧ resolveRecipients teams c
        = (teamQueryResult teams c).map (fun t => (t.email, some t.id)) := by
  constructor
  · simp [statusFiltered, h2, h3]
  · simp [resolveRecipients, h1]

/-- Witness for the amended C5 at the "bogus"-kind sample campaign. -/
theorem unknown_kind_treated_as_all_teams_witness :
    (bogusCamp.target_type ≠ "custom_emails"
      ∧ bogusCamp.target_type ≠ "approved_teams"
      ∧ bogusCamp.target_type ≠ "pending_teams")
    ∧ statusFiltered fiveTeams bogusCamp = fiveTeams :=
  ⟨⟨by decide, by decide, by decide⟩,
   (unknown_kind_treated_as_all_teams fiveTeams bogusCamp (by decide) (by decide)
      (by decide)).1⟩

/-- C6 counterexample: a campaign created with an empty explicit address
list stores `custom_emails` as NULL and previews the team count; over a
registry of one team, triggering it resolves that team and sends one
message (one delivery record) — not the zero-send completion the claim
states. -/
theorem empty_custom_list_counterexample :
    (createCampaign [teamOf 1 "t1@x.com" 1] emptyCustomCreate 7 1).custom_emails
      = none
    ∧ (createCampaign [teamOf 1 "t1@x.com" 1] emptyCustomCreate 7 1).total_recipients
      = 1
    ∧ sendResolvedCount (sendCampaign cfgSample
        { campaigns := [createCampaign [teamOf 1 "t1@x.com" 1] emptyCustomCreate 7 1]
          teams := [teamOf 1 "t1@x.com" 1]
          logs := [] } 1 7 (fun _ => .ok) 5) = 1
    ∧ sendLogsCount (sendCampaign cfgSample
        { campaigns := [createCampaign [teamOf 1 "t1@x.com" 1] emptyCustomCreate 7 1]
          teams := [teamOf 1 "t1@x.com" 1]
          logs := [] } 1 7 (fun _ => .ok) 5) = 1 := by
  decide

/-- C6 (amended): a campaign created with an explicit address list that is
empty is not stored as an explicit-list campaign: `custom_emails` is NULL
and the preview count comes from the team query; at send time resolution
falls back to the team query with no status filter (season scope and cap
still applied), so the dispatch targets the team registry rather than
completing with zero sends; zero messages go out only when no team
matches. -/
theorem empty_custom_list_falls_back_to_teams (teams : List Team)
    (d : MassMailingCreate) (admin_id new_id : Nat)
    (ht : d.target_type = "custom_emails") (hl : d.custom_emails = some []) :
    (createCampaign teams d admin_id new_id).custom_emails = none
    ∧ (createCampaign teams d admin_id new_id).total_recipients
        = countRecipientsPreview teams d
    ∧ (∀ (teams2 : List Team),
        resolveRecipients teams2 (createCampaign teams d admin_id new_id)
          = (teamQueryResult teams2 (createCampaign teams d admin_id new_id)).map
              (fun t => (t.email, some t.id))
        ∧ statusFiltered teams2 (createCampaign teams d admin_id new_id) = teams2) := by
  refine ⟨?_, ?_, ?_⟩
  · simp [createCampaign, hl, pyTruthyList]
  · simp [createCampaign, hl, pyTruthyList]
  · intro teams2
    have hce : (createCampaign teams d admin_id new_id).custom_emails = none := by
      simp [createCampaign, hl, pyTruthyList]
    have htt : (createCampaign teams d admin_id new_id).target_type
        = "custom_emails" := by
      simp [createCampaign, ht]
    constructor
    · simp [resolveRecipients, hce]
    · rw [statusFiltered.eq_def, htt]
      rw [if_neg (by decide), if_neg (by decide)]

/-- Witness for the amended C6 at the concrete empty-list create request. -/
theorem empty_custom_list_falls_back_to_teams_witness :
    (emptyCustomCreate.target_type = "custom_emails"
      ∧ emptyCustomCreate.custom_emails = some [])
    ∧ (createCampaign fiveTeams emptyCustomCreate 7 1).custom_emails = none :=
  ⟨⟨rfl, rfl⟩,
   (empty_custom_list_falls_back_to_teams fiveTeams emptyCustomCreate 7 1 rfl rfl).1⟩

/-- C7 counterexample: with one approved team and a cap of 0 present, the
resolver returns the whole matching set — a falsy cap of 0 skips the LIMIT
— not min(0, 1) = 0 recipients as the claim's formula requires. -/
theorem cap_zero_counterexample :
    resolveRecipients [teamOf 1 "t1@x.com" 1] capZeroCamp = [("t1@x.com", some 1)]
    ∧ (resolveRecipients [teamOf 1 "t1@x.com" 1] capZeroCamp).length ≠ min 0 1 := by
  decide

/-- C7 (amended): for a team-based resolution whose live matching set has
size N and whose cap C is present and positive (C ≥ 1), the resolver
returns exactly min(C, N) recipients, ordered by registration recency
newest first; a cap of 0 is Python-falsy and is treated as no cap.
Concretely, 5 approved teams registered at ticks 1 < ... < 5 with cap 2
resolve to the tick-5 team then the tick-4 team, in that order. -/
theorem cap_ceiling_and_recency (teams : List Team) (c : Campaign) (C : Nat)
    (hcap : c.recipients_limit = some C) (hC : 0 < C)
    (hcustom : c.target_type ≠ "custom_emails") :
    (teamQueryResult teams c).length
      = min C (seasonFiltered (statusFiltered teams c) c).length
    ∧ (teamQueryResult teams c).Pairwise
        (fun a b => b.created_at ≤ a.created_at)
    ∧ resolveRecipients teams c
        = (teamQueryResult teams c).map (fun t => (t.email, some t.id))
    ∧ resolveRecipients fiveTeams cap2Camp
        = [("t5@x.com", some 5), ("t4@x.com", some 4)] := by
  have htr : pyTruthyNat c.recipients_limit = true := by
    rw [hcap]
    simp [pyTruthyNat]
    omega
  refine ⟨?_, ?_, ?_, by decide⟩
  · unfold teamQueryResult capApplied
    rw [htr, hcap]
    simp [List.length_take, sortByRecency_length]
  · unfold teamQueryResult capApplied
    rw [htr]
    exact List.Pairwise.sublist (List.take_sublist _ _) (sortByRecency_pairwise _)
  · simp [resolveRecipients, hcustom]

/-- Witness for the amended C7 at the five-team registry with cap 2. -/
theorem cap_ceiling_and_recency_witness :
    (cap2Camp.recipients_limit = some 2 ∧ 0 < 2
      ∧ cap2Camp.target_type ≠ "custom_emails")
    ∧ (teamQueryResult fiveTeams cap2Camp).length
        = min 2 (seasonFiltered (statusFiltered fiveTeams cap2Camp) cap2Camp).length :=
  ⟨⟨rfl, by decide, by decide⟩,
   (cap_ceiling_and_recency fiveTeams cap2Camp 2 rfl (by decide) (by decide)).1⟩

/-- C8: deleting a campaign whose `is_sent` flag is true is rejected with
the cannot-delete error — the rejection writes nothing, so the campaign row
and every delivery record are untouched — and whenever a campaign deletion
does succeed it never cascades to the delivery history: the email-log table
(which holds no foreign key to campaigns) is unchanged. -/
theorem delete_sent_campaign_rejected (db : Db) (campaign_id : Nat)
    (c : Campaign)
    (hfind : db.campaigns.find? (fun x => x.id == campaign_id) = some c)
    (hsent : c.is_sent = true) :
    deleteCampaign db campaign_id = .error .cannotDeleteSent
    ∧ ∀ (db2 : Db) (cid2 : Nat) (db3 : Db),
        deleteCampaign db2 cid2 = .ok db3 →
        db3.logs = db2.logs ∧ db3.teams = db2.teams := by
  constructor
  · unfold deleteCampaign
    rw [hfind]
    simp [hsent]
  · intro db2 cid2 db3 h
    unfold deleteCampaign at h
    cases hf : db2.campaigns.find? (fun x => x.id == cid2) with
    | none => rw [hf] at h; cases h
    | some c2 =>
      rw [hf] at h
      by_cases hs : c2.is_sent = true
      · simp [hs] at h
      · simp [hs] at h
        subst h
        exact ⟨rfl, rfl⟩

/-- Witness for C8: deleting the concrete already-sent sample campaign is
rejected. -/
theorem delete_sent_campaign_rejected_witness :
    ((Db.mk [sentCamp] [] []).campaigns.find? (fun x => x.id == 1) = some sentCamp
      ∧ sentCamp.is_sent = true)
    ∧ deleteCampaign (Db.mk [sentCamp] [] []) 1 = .error .cannotDeleteSent :=
  ⟨⟨rfl, rfl⟩,
   (delete_sent_campaign_rejected (Db.mk [sentCamp] [] []) 1 sentCamp rfl rfl).1⟩

/-- C9: every delivery record written by a campaign dispatch leaves the
loop in a terminal status — created `pending`, it ends `sent` or `failed`
and is never reverted; a `sent` record carries the completion timestamp of
the dispatch, and a `failed` record carries an error detail. -/
theorem delivery_records_terminal (cfg : Settings) (c : Campaign)
    (recipients : List (String × Option Nat)) (admin_id : Option Nat)
    (outcomes : Nat → TransportResult) (now : Nat) (log : EmailLog)
    (hmem : log ∈ (sendCampaignEmails cfg c recipients admin_id outcomes now).1) :
    (log.status = .sent ∨ log.status = .failed)
    ∧ log.status ≠ .pending
    ∧ (log.status = .sent → log.sent_at = some now)
    ∧ (log.status = .failed → log.error_message.isSome = true) := by
  have h := dispatchLoop_log_invariants cfg c.subject c.body admin_id outcomes
    now recipients 0 log hmem
  refine ⟨h.1, ?_, h.2.1, h.2.2⟩
  rcases h.1 with h1 | h1 <;> simp [h1]

/-- Witness for C9: the record produced for the single recipient of a
concrete dispatch is terminal and carries its completion timestamp. -/
theorem delivery_records_terminal_witness :
    ((sendEmailOne cfgSample "a@x.com" "s" "b" "mass_mailing" none none (some 7)
        TransportResult.ok 5).1
      ∈ (sendCampaignEmails cfgSample campBase [("a@x.com", none)] (some 7)
          (fun _ => .ok) 5).1)
    ∧ (((sendEmailOne cfgSample "a@x.com" "s" "b" "mass_mailing" none none (some 7)
          TransportResult.ok 5).1.status = EmailStatus.sent
        ∨ (sendEmailOne cfgSample "a@x.com" "s" "b" "mass_mailing" none none (some 7)
            TransportResult.ok 5).1.status = EmailStatus.failed)
      ∧ (sendEmailOne cfgSample "a@x.com" "s" "b" "mass_mailing" none none (some 7)
          TransportResult.ok 5).1.status ≠ EmailStatus.pending
      ∧ ((sendEmailOne cfgSample "a@x.com" "s" "b" "mass_mailing" none none (some 7)
            TransportResult.ok 5).1.status = EmailStatus.sent →
          (sendEmailOne cfgSample "a@x.com" "s" "b" "mass_mailing" none none (some 7)
            TransportResult.ok 5).1.sent_at = some 5)
      ∧ ((sendEmailOne cfgSample "a@x.com" "s" "b" "mass_mailing" none none (some 7)
            TransportResult.ok 5).1.status = EmailStatus.failed →
          (sendEmailOne cfgSample "a@x.com" "s" "b" "mass_mailing" none none (some 7)
            TransportResult.ok 5).1.error_message.isSome = true)) :=
  have hm : (sendEmailOne cfgSample "a@x.com" "s" "b" "mass_mailing" none none (some 7)
      TransportResult.ok 5).1
      ∈ (sendCampaignEmails cfgSample campBase [("a@x.com", none)] (some 7)
          (fun _ => .ok) 5).1 :=
    List.Mem.head _
  ⟨hm, delivery_records_terminal cfgSample campBase [("a@x.com", none)] (some 7)
      (fun _ => .ok) 5 _ hm⟩

/-- A draft campaign whose stored preview count is 0. -/
def previewZeroCamp : Campaign := { campBase with total_recipients := 0 }

/-- C10: the finalising write at the end of a dispatch changes only
`sent_count`, `failed_count`, `is_sent` and `sent_at`; every other campaign
field is left as it was — in particular `total_recipients` keeps the
preview value computed at creation, and is not updated to the size of the
recipient set actually resolved at send time: a campaign with stored
preview 0 dispatched to 1 recipient still shows `total_recipients = 0`. -/
theorem finalizing_write_frame (cfg : Settings) (c : Campaign)
    (recipients : List (String × Option Nat)) (admin_id : Option Nat)
    (outcomes : Nat → TransportResult) (now : Nat) :
    ((sendCampaignEmails cfg c recipients admin_id outcomes now).2.total_recipients
        = c.total_recipients
    ∧ (sendCampaignEmails cfg c recipients admin_id outcomes now).2.id = c.id
    ∧ (sendCampaignEmails cfg c recipients admin_id outcomes now).2.name = c.name
    ∧ (sendCampaignEmails cfg c recipients admin_id outcomes now).2.subject = c.subject
    ∧ (sendCampaignEmails cfg c recipients admin_id outcomes now).2.body = c.body
    ∧ (sendCampaignEmails cfg c recipients admin_id outcomes now).2.target_type
        = c.target_type
    ∧ (sendCampaignEmails cfg c recipients admin_id outcomes now).2.target_season_id
        = c.target_season_id
    ∧ (sendCampaignEmails cfg c recipients admin_id outcomes now).2.custom_emails
        = c.custom_emails
    ∧ (sendCampaignEmails cfg c recipients admin_id outcomes now).2.recipients_limit
        = c.recipients_limit
    ∧ (sendCampaignEmails cfg c recipients admin_id outcomes now).2.scheduled_at
        = c.scheduled_at
    ∧ (sendCampaignEmails cfg c recipients admin_id outcomes now).2.is_scheduled
        = c.is_scheduled
    ∧ (sendCampaignEmails cfg c recipients admin_id outcomes now).2.created_by
        = c.created_by
    ∧ (sendCampaignEmails cfg c recipients admin_id outcomes now).2.is_sent = true
    ∧ (sendCampaignEmails cfg c recipients admin_id outcomes now).2.sent_at = some now)
    ∧ ((sendCampaignEmails cfgSample previewZeroCamp [("a@x.com", none)] (some 7)
          (fun _ => .ok) 5).2.total_recipients = 0
      ∧ (sendCampaignEmails cfgSample previewZeroCamp [("a@x.com", none)] (some 7)
          (fun _ => .ok) 5).1.length = 1
      ∧ (1 : Nat) ≠ 0) :=
  ⟨⟨rfl, rfl, rfl, rfl, rfl, rfl, rfl, rfl, rfl, rfl, rfl, rfl, rfl, rfl⟩,
   ⟨rfl, rfl, by decide⟩⟩

end EuroBot
